import Mathlib

/-!
Verification of the Autodeployment Chat System's deployment orchestration core.

This file shallowly embeds the decision logic of the repository in Lean:
dict-shaped Python values become structures with `Option` fields (a `none`
marks an absent key or a Python `None` value, as documented per field),
Python floats become `ℚ` (every literal in the scored arithmetic is an exact
decimal), and fallible or external-effect steps become `Except`-valued
parameters threaded through explicit pipeline functions.
-/

/-- Requirement dictionary produced by `NLPParser.parse_requirements`
(src/nlp_parser.py).  Each field is the value of the corresponding dict key;
`none` means the key is absent (the parser sets `cloud_provider`,
`environment` and `scaling` via `setdefault`, but `deployment_preference`
may be missing entirely). -/
structure Requirements where
  cloud_provider : Option String
  environment : Option String
  scaling : Option String
  deployment_preference : Option String
deriving DecidableEq

/-- Analysis dictionary produced by `RepositoryAnalyzer.analyze_repository`
(src/repository_analyser.py lines 61-109).  Every key listed here is always
present in the analyzer's output (the dict is fully initialised at lines
61-77 before being filled in), so a field value of `none` models a Python
`None` *value*, not a missing key.  `dependencies` is the manifest-name to
parsed-entries map flattened to an association list. -/
structure RepoAnalysis where
  language : Option String
  framework : Option String
  dependencies : List (String × List String)
  entry_points : List String
  port : Option Int
  environment_vars : List String
  dockerfile_present : Bool
  docker_compose_present : Bool
  build_commands : List String
  start_commands : List String
  required_services : List String
  estimated_memory : String
  estimated_cpu : String
deriving DecidableEq

/-- Python truthiness of an optional string (`if user_preference:` style
tests): `None` and the empty string are falsy. -/
def truthyStr : Option String → Bool
  | none => false
  | some s => s != ""

/-- Python truthiness of an optional integer (`if analysis.get('port'):`):
`None` and `0` are falsy. -/
def truthyInt : Option Int → Bool
  | none => false
  | some n => n != 0

/-- The keys of `DeploymentEngine.deployment_strategies`
(src/deployment_engine.py lines 8-33), in dict insertion order. -/
def strategyKeys : List String := ["vm", "serverless", "container", "kubernetes"]

/-- Embeds `DeploymentEngine._calculate_strategy_score`
(src/deployment_engine.py lines 66-145).  Scores are exact rationals; the
final `max(score, 0.0)` clamp is kept. -/
def calculate_strategy_score (strategy : String) (req : Requirements)
    (ra : RepoAnalysis) : ℚ :=
  let language := ra.language
  let framework := ra.framework
  let services := ra.required_services
  let scaling := req.scaling.getD "minimal"
  let environment := req.environment.getD "production"
  let score : ℚ :=
    if strategy = "vm" then
      (0.5 : ℚ)
      + (if language = some "python" ∨ language = some "java" then 0.2 else 0)
      + (if services.length > 0 then 0.3 else 0)
      + (if framework = some "django" ∨ framework = some "spring" then 0.2 else 0)
      + (if scaling = "minimal" then 0.1 else 0)
    else if strategy = "serverless" then
      (0.3 : ℚ)
      + (if framework = some "flask" ∨ framework = some "fastapi" ∨
            framework = some "express" then 0.4 else 0)
      + (if services.length = 0 then 0.3 else 0)
      + (if scaling = "minimal" then 0.2 else 0)
      + (if language = some "nodejs" then 0.1 else 0)
      - (if services.length > 1 then 0.5 else 0)
    else if strategy = "container" then
      (0.4 : ℚ)
      + (if ra.dockerfile_present then 0.3 else 0)
      + (if framework = some "fastapi" ∨ framework = some "express" ∨
            framework = some "flask" then 0.2 else 0)
      + (if scaling = "moderate" ∨ scaling = "high" then 0.2 else 0)
      + (if language = some "python" ∨ language = some "nodejs" then 0.1 else 0)
    else if strategy = "kubernetes" then
      (0.2 : ℚ)
      + (if scaling = "high" then 0.4 else 0)
      + (if environment = "production" then 0.2 else 0)
      + (if services.length > 2 then 0.2 else 0)
      - (if scaling = "minimal" then 0.3 else 0)
    else 0
  max score 0

/-- Python's `max(iterable, key=f)` on the tail of a key list, keeping the
current best and replacing it only on a strictly greater key value, so the
first maximal element wins ties. -/
def maxByScore (f : String → ℚ) (best : String) : List String → String
  | [] => best
  | k :: ks => maxByScore f (if f k > f best then k else best) ks

/-- The `best_strategy = max(strategy_scores, key=strategy_scores.get)`
step of `DeploymentEngine.determine_strategy` (src/deployment_engine.py
line 49); `strategy_scores` is keyed by `strategyKeys` in insertion order,
which is never empty, so the `[]` branch is unreachable. -/
def bestStrategy (req : Requirements) (ra : RepoAnalysis) : String :=
  match strategyKeys with
  | [] => ""
  | k :: ks => maxByScore (fun s => calculate_strategy_score s req ra) k ks

/-- The user-preference override of `DeploymentEngine.determine_strategy`
(src/deployment_engine.py lines 52-56): a truthy preference other than
`"auto"` that names a known strategy replaces the computed winner. -/
def applyPreference (req : Requirements) (best : String) : String :=
  match req.deployment_preference with
  | none => best
  | some p =>
      if p ≠ "" ∧ p ≠ "auto" then
        (if p ∈ strategyKeys then p else best)
      else best

/-- Embeds `DeploymentEngine._get_default_port`
(src/deployment_engine.py lines 172-193): framework-keyed table, then
language-keyed defaults, then the fixed 8080. -/
def get_default_port (ra : RepoAnalysis) : Int :=
  let framework := ra.framework
  let language := ra.language
  if framework = some "flask" then 5000
  else if framework = some "django" then 8000
  else if framework = some "fastapi" then 8000
  else if framework = some "express" then 3000
  else if framework = some "spring" then 8080
  else if framework = some "streamlit" then 8501
  else if language = some "python" then 8000
  else if language = some "nodejs" then 3000
  else 8080

/-- Embeds `DeploymentEngine._determine_instance_type`
(src/deployment_engine.py lines 239-250). -/
def determine_instance_type (req : Requirements) (ra : RepoAnalysis) : String :=
  let scaling := req.scaling.getD "minimal"
  let language := ra.language
  let services := ra.required_services.length
  if scaling = "high" ∨ services > 2 then "t3.large"
  else if scaling = "moderate" ∨ language = some "java" then "t3.medium"
  else "t3.micro"

/-- Embeds `DeploymentEngine._get_serverless_runtime`
(src/deployment_engine.py lines 252-262). -/
def get_serverless_runtime (ra : RepoAnalysis) : String :=
  if ra.language = some "python" then "python3.9"
  else if ra.language = some "nodejs" then "nodejs18.x"
  else if ra.language = some "java" then "java11"
  else "python3.9"

/-- The `application` sub-dict of the configuration built by
`DeploymentEngine._generate_deployment_config`
(src/deployment_engine.py lines 154-162). -/
structure AppConfig where
  language : Option String
  framework : Option String
  port : Option Int
  build_commands : List String
  start_commands : List String
  environment_vars : List String
  dependencies : List (String × List String)
deriving DecidableEq

/-- The infrastructure sub-dict built by
`DeploymentEngine._generate_infrastructure_config`
(src/deployment_engine.py lines 195-237).  The Python code builds a base
dict and then merges a strategy-specific dict on top; fields that a
strategy does not set are modelled as `none`. -/
structure InfraConfig where
  region : String
  availability_zones : List String
  instance_type : Option String
  storage : Option String
  auto_scaling : Option Bool
  load_balancer : Option Bool
  memory : Option String
  timeout_setting : Option String
  runtime : Option String
  triggers : Option (List String)
  container_registry : Option Bool
  replicas : Option Nat
  cluster_size : Option Nat
  node_type : Option String
  ingress : Option Bool
deriving DecidableEq

/-- One service entry of `DeploymentEngine._generate_services_config`
(src/deployment_engine.py lines 264-296). -/
structure ServiceDesc where
  service_type : String
  version : String
  instance_class : Option String
  node_type : Option String
  storage : Option String
deriving DecidableEq

/-- The services sub-dict: the Python code accumulates into the keys
`database` and `cache`, later services overwriting earlier ones. -/
structure ServicesConfig where
  database : Option ServiceDesc
  cache : Option ServiceDesc
deriving DecidableEq

/-- The networking sub-dict built by
`DeploymentEngine._generate_networking_config`
(src/deployment_engine.py lines 298-315). -/
structure NetworkingConfig where
  vpc : Bool
  public_subnets : Nat
  private_subnets : Nat
  internet_gateway : Bool
  application_port : Option Int
  health_check_path : Option String
  load_balancer : Option Bool
  ssl_certificate : Option Bool
deriving DecidableEq

/-- The monitoring sub-dict built by
`DeploymentEngine._generate_monitoring_config`
(src/deployment_engine.py lines 317-331). -/
structure MonitoringConfig where
  logging : Bool
  metrics : Bool
  alerts : Bool
  log_retention : String
  distributed_tracing : Option Bool
deriving DecidableEq

/-- The cost estimate built by `DeploymentEngine._estimate_cost`
(src/deployment_engine.py lines 333-382); `breakdown` is the breakdown
dict as an association list in insertion order. -/
structure CostEstimate where
  strategy : String
  monthly_estimate_usd : ℚ
  breakdown : List (String × ℚ)
deriving DecidableEq

/-- The full configuration dict returned by
`DeploymentEngine._generate_deployment_config`
(src/deployment_engine.py lines 147-170). -/
structure DeploymentConfig where
  strategy : String
  cloud_provider : String
  environment : String
  application : AppConfig
  infrastructure : InfraConfig
  services : ServicesConfig
  networking : NetworkingConfig
  monitoring : MonitoringConfig
  estimated_cost : CostEstimate
deriving DecidableEq

/-- Embeds `DeploymentEngine._generate_infrastructure_config`
(src/deployment_engine.py lines 195-237). -/
def generate_infrastructure_config (strategy : String) (req : Requirements)
    (ra : RepoAnalysis) : InfraConfig :=
  let base : InfraConfig :=
    { region := "us-east-1", availability_zones := ["us-east-1a", "us-east-1b"],
      instance_type := none, storage := none, auto_scaling := none,
      load_balancer := none, memory := none, timeout_setting := none,
      runtime := none, triggers := none, container_registry := none,
      replicas := none, cluster_size := none, node_type := none, ingress := none }
  if strategy = "vm" then
    { base with instance_type := some (determine_instance_type req ra),
                storage := some "20GB", auto_scaling := some false,
                load_balancer := some false }
  else if strategy = "serverless" then
    { base with memory := some ra.estimated_memory, timeout_setting := some "30s",
                runtime := some (get_serverless_runtime ra),
                triggers := some ["http"] }
  else if strategy = "container" then
    { base with container_registry := some true,
                instance_type := some (determine_instance_type req ra),
                replicas := some 1, auto_scaling := some true,
                load_balancer := some true }
  else if strategy = "kubernetes" then
    { base with cluster_size := some 2,
                node_type := some (determine_instance_type req ra),
                auto_scaling := some true, load_balancer := some true,
                ingress := some true }
  else base

/-- Embeds `DeploymentEngine._generate_services_config`
(src/deployment_engine.py lines 264-296): a left fold over the required
services, each recognised service overwriting the corresponding key. -/
def generate_services_config (required_services : List String) : ServicesConfig :=
  required_services.foldl
    (fun cfg service =>
      if service = "postgresql" then
        { cfg with database := some ⟨"postgresql", "13", some "db.t3.micro", none, some "20GB"⟩ }
      else if service = "mysql" then
        { cfg with database := some ⟨"mysql", "8.0", some "db.t3.micro", none, some "20GB"⟩ }
      else if service = "redis" then
        { cfg with cache := some ⟨"redis", "6.2", none, some "cache.t3.micro", none⟩ }
      else if service = "mongodb" then
        { cfg with database := some ⟨"mongodb", "4.4", some "t3.small", none, none⟩ }
      else cfg)
    ⟨none, none⟩

/-- Embeds `DeploymentEngine._generate_networking_config`
(src/deployment_engine.py lines 298-315).  The source computes
`repo_analysis.get('port', self._get_default_port(repo_analysis))`; since
every analysis produced by `RepositoryAnalyzer.analyze_repository` carries
the `'port'` key (possibly with value `None`), Python's `dict.get` returns
the stored value and the eagerly evaluated default is discarded, so the
port here is `ra.port` verbatim. -/
def generate_networking_config (strategy : String) (ra : RepoAnalysis) :
    NetworkingConfig :=
  let port := ra.port
  let base : NetworkingConfig :=
    { vpc := true, public_subnets := 2, private_subnets := 2,
      internet_gateway := true, application_port := port,
      health_check_path := if strategy ≠ "serverless" then some "/" else none,
      load_balancer := none, ssl_certificate := none }
  if strategy = "container" ∨ strategy = "kubernetes" then
    { base with load_balancer := some true, ssl_certificate := some true }
  else base

/-- Embeds `DeploymentEngine._generate_monitoring_config`
(src/deployment_engine.py lines 317-331). -/
def generate_monitoring_config (strategy : String) (req : Requirements) :
    MonitoringConfig :=
  let environment := req.environment.getD "production"
  let base : MonitoringConfig :=
    { logging := true, metrics := true, alerts := environment = "production",
      log_retention := if environment = "production" then "30 days" else "7 days",
      distributed_tracing := none }
  if strategy = "container" ∨ strategy = "kubernetes" then
    { base with distributed_tracing := some true }
  else base

/-- Embeds `DeploymentEngine._estimate_cost`
(src/deployment_engine.py lines 333-382). -/
def estimate_cost (strategy : String) (req : Requirements) (ra : RepoAnalysis) :
    CostEstimate :=
  let base : CostEstimate := { strategy := strategy, monthly_estimate_usd := 0, breakdown := [] }
  let est : CostEstimate :=
    if strategy = "vm" then
      let instance_type := determine_instance_type req ra
      let cost : ℚ :=
        if instance_type = "t3.micro" then 8.5
        else if instance_type = "t3.medium" then 33.7
        else if instance_type = "t3.large" then 67.4
        else 33.7
      { base with monthly_estimate_usd := cost, breakdown := [("compute", cost)] }
    else if strategy = "serverless" then
      { base with monthly_estimate_usd := 5, breakdown := [("functions", 5)] }
    else if strategy = "container" then
      { base with monthly_estimate_usd := 50 + 33.7,
                  breakdown := [("container_service", 50), ("compute", 33.7)] }
    else if strategy = "kubernetes" then
      { base with monthly_estimate_usd := 73 + 67.4 * 2,
                  breakdown := [("cluster", 73), ("nodes", 67.4 * 2)] }
    else base
  let service_cost : ℚ := ra.required_services.length * 15
  { est with monthly_estimate_usd := est.monthly_estimate_usd + service_cost,
             breakdown := est.breakdown ++
               (if service_cost > 0 then [("services", service_cost)] else []) }

/-- Embeds `DeploymentEngine._generate_deployment_config`
(src/deployment_engine.py lines 147-170).  As in
`generate_networking_config`, the application port is
`repo_analysis.get('port', self._get_default_port(repo_analysis))`, which
for analyzer-produced analyses (where the `'port'` key is always present)
is the stored `ra.port`, even when that value is `None`; the computed
default port is discarded. -/
def generate_deployment_config (strategy : String) (req : Requirements)
    (ra : RepoAnalysis) : DeploymentConfig :=
  { strategy := strategy,
    cloud_provider := req.cloud_provider.getD "aws",
    environment := req.environment.getD "production",
    application :=
      { language := ra.language, framework := ra.framework,
        port := ra.port,
        build_commands := ra.build_commands, start_commands := ra.start_commands,
        environment_vars := ra.environment_vars, dependencies := ra.dependencies },
    infrastructure := generate_infrastructure_config strategy req ra,
    services := generate_services_config ra.required_services,
    networking := generate_networking_config strategy ra,
    monitoring := generate_monitoring_config strategy req,
    estimated_cost := estimate_cost strategy req ra }

/-- Embeds `DeploymentEngine.determine_strategy`
(src/deployment_engine.py lines 35-64): score every strategy, take the
first maximal one, apply the user-preference override, and generate the
configuration.  The function is total: the source's only operations are
dict lookups with defaults, a `max` over a non-empty dict, and pure
construction, so it never raises. -/
def determine_strategy (req : Requirements) (ra : RepoAnalysis) : DeploymentConfig :=
  generate_deployment_config (applyPreference req (bestStrategy req ra)) req ra

/-- Embeds `RepositoryAnalyzer._calculate_confidence`
(src/repository_analyser.py lines 534-562).  Each `if analysis.get(...)`
test is Python truthiness: the language test is `!= 'unknown'`, the
framework and port tests are truthiness of an optional value (so the empty
string and the integer 0 are falsy), and the container tests are
non-emptiness.  The final score is capped by `min(confidence, 1.0)`. -/
def calculate_confidence (a : RepoAnalysis) : ℚ :=
  let confidence : ℚ :=
    (if a.language ≠ some "unknown" then (0.3 : ℚ) else 0)
    + (if truthyStr a.framework then 0.2 else 0)
    + (if a.dependencies ≠ [] then 0.2 else 0)
    + (if a.entry_points ≠ [] then 0.15 else 0)
    + (if truthyInt a.port then 0.1 else 0)
    + (if a.start_commands ≠ [] then 0.05 else 0)
  min confidence 1

/-- The fixed ordered pattern list of `RepositoryAnalyzer._detect_port`
(src/repository_analyser.py lines 304-310), verbatim. -/
def port_patterns : List String :=
  ["port[\"\\s]*[:=][\"\\s]*(\\d+)",
   "PORT[\"\\s]*[:=][\"\\s]*(\\d+)",
   "listen\\s*\\(\\s*(\\d+)",
   "\\.listen\\s*\\(\\s*(\\d+)",
   "app\\.run\\s*\\([^)]*port\\s*=\\s*(\\d+)"]

/-- The inner loop of `RepositoryAnalyzer._detect_port` for one file:
try the patterns in order and return `int(matches[0])` of the first
pattern whose `re.findall` result is non-empty.  The regex engine is
abstracted as `findall : pattern → content → list of numeric matches`
(the `int` conversion of the matched digit groups is folded into it). -/
def first_pattern_port (findall : String → String → List Nat)
    (content : String) : List String → Option Nat
  | [] => none
  | p :: ps =>
      match findall p content with
      | [] => first_pattern_port findall content ps
      | n :: _ => some n

/-- The outer loop of `RepositoryAnalyzer._detect_port`
(src/repository_analyser.py lines 302-326): walk the source files in
traversal order (`files` is the list of readable `.py`/`.js`/`.ts`/`.java`
file contents in `os.walk` order; unreadable files are skipped by the
`except: continue`) and return on the first file in which any pattern
matches. -/
def detect_port (findall : String → String → List Nat) :
    List String → Option Nat
  | [] => none
  | f :: fs =>
      match first_pattern_port findall f port_patterns with
      | some n => some n
      | none => detect_port findall fs

/-- Python `str(...)` of an optional integer, as an f-string would render
it (`None` for a missing value). -/
def pyStr : Option Int → String
  | some n => toString n
  | none => "None"

/-- The placeholder service URL built by
`ApplicationDeployer._deploy_to_container`
(src/integration/application_deployer.py line 131):
`f"http://ecs-service-url:{app_port}"`. -/
def ecsServiceUrl (app_port : Option Int) : String :=
  "http://ecs-service-url:" ++ pyStr app_port

/-- Result dict returned by the `ApplicationDeployer` deploy paths. -/
structure DeployResult where
  status : String
  url : Option String
  deployment_type : String
deriving DecidableEq

/-- Embeds the short-circuit guard and polling loop of
`ApplicationDeployer._verify_deployment`
(src/integration/application_deployer.py lines 596-626): a falsy URL or
the exact string `"http://ecs-service-url:8000"` skips verification and
returns `True` (with a warning log); otherwise the endpoint is probed
repeatedly until timeout, abstracted by `probeSucceeds` (whether any probe
within the 300-second window returned curl exit status 0). -/
def verify_deployment (url : Option String) (probeSucceeds : Bool) : Bool :=
  match url with
  | none => true
  | some u => if u = "" ∨ u = "http://ecs-service-url:8000" then true else probeSucceeds

/-- Embeds `ApplicationDeployer._deploy_to_container`
(src/integration/application_deployer.py lines 113-138): the guard
`if not ecr_url:` is a Python truthiness test, so both a missing and an
empty ECR repository URL raise; otherwise the build/push and ECS-update
steps run (abstracted by `buildPush`, whose failure propagates) and the
result is reported as success with the placeholder URL — this path never
calls `_verify_deployment`. -/
def deploy_to_container (ecr_repository_url : Option String)
    (_cluster_name : Option String) (app_port : Option Int)
    (buildPush : Except String Unit) : Except String DeployResult :=
  if truthyStr ecr_repository_url then
    match buildPush with
    | .error e => .error e
    | .ok _ =>
        .ok { status := "success", url := some (ecsServiceUrl app_port),
              deployment_type := "container" }
  else .error "ECR repository URL not found"

/-- Embeds the strategy dispatch of `ApplicationDeployer.deploy`
(src/integration/application_deployer.py lines 18-37).  The three
strategy-specific paths are external-effect heavy and are abstracted as
the `Except` outcomes `vmCase`, `serverlessCase` and `containerCase`; any
other strategy raises `ValueError(f"Unsupported deployment strategy:
{strategy}")`, which the surrounding `except` re-raises. -/
def app_deploy (strategy : String)
    (vmCase serverlessCase containerCase : Except String DeployResult) :
    Except String DeployResult :=
  if strategy = "vm" then vmCase
  else if strategy = "serverless" then serverlessCase
  else if strategy = "container" then containerCase
  else .error ("Unsupported deployment strategy: " ++ strategy)

/-- Outcomes of the external steps of `InfrastructureProvisioner.provision`
(src/services/infrastructure_provisioner.py lines 16-52), in call order:
writing the Terraform files, `terraform init`, `terraform plan`,
`terraform apply`, `terraform output -json` (with JSON parsing), and the
`terraform destroy` run by `_cleanup_on_failure`.  The temporary-directory
creation at line 27 is modelled as succeeding (after it, `terraform_dir`
is always set). -/
structure TerraformRun where
  generate : Except String Unit
  init : Except String Unit
  plan : Except String Unit
  apply : Except String Unit
  outputJson : Except String (List (String × String))
  destroy : Except String Unit

/-- Embeds `InfrastructureProvisioner._get_terraform_outputs`
(src/services/infrastructure_provisioner.py lines 709-724): any error in
running or parsing `terraform output` is swallowed and an empty dict is
returned. -/
def get_terraform_outputs (run : TerraformRun) : List (String × String) :=
  match run.outputJson with
  | .ok outputs => outputs
  | .error _ => []

/-- Embeds `InfrastructureProvisioner._cleanup_on_failure`
(src/services/infrastructure_provisioner.py lines 726-732), returning the
log lines it emits: the attempt is always logged, and a failing
`terraform destroy` is logged and swallowed, never re-raised. -/
def cleanup_on_failure (destroy : Except String Unit) : List String :=
  "Cleaning up infrastructure due to deployment failure..." ::
    (match destroy with
     | .ok _ => []
     | .error e => ["Failed to cleanup infrastructure: " ++ e])

/-- Embeds `InfrastructureProvisioner.provision`
(src/services/infrastructure_provisioner.py lines 16-52): run the
generate/init/plan/apply steps in order; on the first raised error, run
`_cleanup_on_failure` (since `terraform_dir` is set) and re-raise the
original error.  Returns the provisioning outcome together with the
cleanup log lines (empty on success, since cleanup is not invoked). -/
def provision (run : TerraformRun) :
    Except String (List (String × String)) × List String :=
  match run.generate with
  | .error e => (.error e, cleanup_on_failure run.destroy)
  | .ok _ =>
      match run.init with
      | .error e => (.error e, cleanup_on_failure run.destroy)
      | .ok _ =>
          match run.plan with
          | .error e => (.error e, cleanup_on_failure run.destroy)
          | .ok _ =>
              match run.apply with
              | .error e => (.error e, cleanup_on_failure run.destroy)
              | .ok _ => (.ok (get_terraform_outputs run), [])

/-- The per-deployment status dict of src/main.py (the entry of
`deployment_status[deployment_id]`).  `message` is `none` until the first
`update_deployment_status` call (the key is absent in the initial dict);
log entries are modelled by their message strings (the wall-clock
timestamps attached in `log_step` are not modelled); the `start_time`,
`end_time` and `infrastructure` keys are likewise real-time/opaque payload
and are not modelled. -/
structure DeploymentRecord where
  status : String
  message : Option String
  steps : List String
  logs : List String
  error : Option String
  deployment_url : Option String
deriving DecidableEq

/-- The record created by the `/deploy` endpoint (src/main.py lines
41-47): status `"initiated"`, empty step/log lists, no error. -/
def initialRecord : DeploymentRecord :=
  { status := "initiated", message := none, steps := [], logs := [],
    error := none, deployment_url := none }

/-- Embeds `log_step` (src/main.py lines 145-154): append the message to
both the logs and the steps lists. -/
def log_step (r : DeploymentRecord) (message : String) : DeploymentRecord :=
  { r with logs := r.logs ++ [message], steps := r.steps ++ [message] }

/-- Embeds `update_deployment_status` (src/main.py lines 139-143): set the
status and message unconditionally — there is no guard on the current
status — and log the message. -/
def update_deployment_status (r : DeploymentRecord) (status message : String) :
    DeploymentRecord :=
  log_step { r with status := status, message := some message } message

/-- One mutation of the status store performed by `process_deployment`:
a `update_deployment_status` call, a `log_step` call, or one of the direct
dict writes (`["error"] = str(e)`, `["deployment_url"] = ...`). -/
inductive StoreOp where
  | setStatus (status message : String) : StoreOp
  | log (message : String) : StoreOp
  | setError (e : String) : StoreOp
  | setUrl (u : Option String) : StoreOp
deriving DecidableEq

/-- Applies one store mutation to the deployment record. -/
def applyOp (r : DeploymentRecord) : StoreOp → DeploymentRecord
  | .setStatus s m => update_deployment_status r s m
  | .log m => log_step r m
  | .setError e => { r with error := some e }
  | .setUrl u => { r with deployment_url := u }

/-- The mutations performed by the `except` clause of `process_deployment`
(src/main.py lines 134-137): mark the deployment failed with the message
`f"Deployment failed: {str(e)}"` and record `str(e)` verbatim in the
record's error field.  The exception is consumed here and never
propagates further (the function is a background task; polling clients
read the stored record). -/
def fail_ops (e : String) : List StoreOp :=
  [.setStatus "failed" ("Deployment failed: " ++ e), .setError e]

/-- Embeds the store mutations of `process_deployment`
(src/main.py lines 78-137) as a function of the outcomes of the fallible
stages.  `parsed`, `analyzed` and `provisioned` are the results of the NLP
parser, the repository analyzer and the infrastructure provisioner;
`deployFn` is `ApplicationDeployer.deploy` applied to the computed
strategy configuration and the provisioned infrastructure.  The strategy
decision itself (`DeploymentEngine.determine_strategy`) is total and is
evaluated inline.  Log payloads interpolated into f-strings are elided
from the fixed message prefixes. -/
def process_deployment_ops (parsed : Except String Requirements)
    (analyzed : Except String RepoAnalysis)
    (provisioned : Except String (List (String × String)))
    (deployFn : DeploymentConfig → List (String × String) → Except String DeployResult) :
    List StoreOp :=
  [.setStatus "processing" "Starting deployment analysis...",
   .log "Parsing natural language requirements..."] ++
  match parsed with
  | .error e => fail_ops e
  | .ok requirements =>
      [.log "Parsed requirements", .log "Analyzing repository"] ++
      match analyzed with
      | .error e => fail_ops e
      | .ok repo_analysis =>
          [.log "Repository analysis complete",
           .log "Determining optimal deployment strategy..."] ++
          let deployment_strategy := determine_strategy requirements repo_analysis
          [.log "Deployment strategy",
           .log "Provisioning cloud infrastructure..."] ++
          match provisioned with
          | .error e => fail_ops e
          | .ok infrastructure =>
              [.log "Infrastructure provisioned", .log "Deploying application..."] ++
              match deployFn deployment_strategy infrastructure with
              | .error e => fail_ops e
              | .ok deployment_result =>
                  [.log "Application deployed successfully",
                   .setStatus "completed"
                     ("Deployment successful! Application available at: " ++
                       deployment_result.url.getD "N/A"),
                   .setUrl deployment_result.url]

/-- The final record after running `process_deployment` on `r0`. -/
def run_process_deployment (r0 : DeploymentRecord)
    (parsed : Except String Requirements)
    (analyzed : Except String RepoAnalysis)
    (provisioned : Except String (List (String × String)))
    (deployFn : DeploymentConfig → List (String × String) → Except String DeployResult) :
    DeploymentRecord :=
  (process_deployment_ops parsed analyzed provisioned deployFn).foldl applyOp r0

/-- The sequence of status values assigned by a list of store mutations,
in order. -/
def statusTrace (ops : List StoreOp) : List String :=
  ops.filterMap fun op =>
    match op with
    | .setStatus s _ => some s
    | _ => none

/-! ## Concrete inputs shared by the theorems below -/

/-- A profile of a Flask repository with no required services and no
detected port, as produced by the analyzer. -/
def flaskProfile : RepoAnalysis :=
  { language := some "python", framework := some "flask",
    dependencies := [("requirements.txt", ["flask"])],
    entry_points := ["app.py"], port := none, environment_vars := [],
    dockerfile_present := false, docker_compose_present := false,
    build_commands := ["pip install -r requirements.txt"],
    start_commands := ["python app.py"], required_services := [],
    estimated_memory := "512Mi", estimated_cpu := "0.5" }

/-- Requirements with scaling `"minimal"` and no preference override. -/
def minimalReq : Requirements := ⟨none, none, some "minimal", none⟩

/-- Requirements with scaling `"high"` and preference `"vm"`. -/
def highVmReq : Requirements := ⟨none, none, some "high", some "vm"⟩

/-- The Flask profile with a detected non-zero port. -/
def fullProfile : RepoAnalysis := { flaskProfile with port := some 5000 }

/-- The Flask profile with a detected port equal to `0` (reachable: the
port regexes match the digits of `port = 0`, and `int("0")` is `0`). -/
def zeroPortProfile : RepoAnalysis := { flaskProfile with port := some 0 }

/-- Requirements with scaling `"high"`, default production environment and
no preference. -/
def k8sReq : Requirements := ⟨none, none, some "high", none⟩

/-- A profile with three required services and no recognised
language/framework, on which the scoring strictly favours kubernetes. -/
def k8sProfile : RepoAnalysis :=
  { language := none, framework := none, dependencies := [],
    entry_points := [], port := none, environment_vars := [],
    dockerfile_present := false, docker_compose_present := false,
    build_commands := [], start_commands := [],
    required_services := ["postgresql", "redis", "mongodb"],
    estimated_memory := "512Mi", estimated_cpu := "0.5" }

/-- Requirements that force the kubernetes strategy by user preference. -/
def prefK8sReq : Requirements := ⟨none, none, none, some "kubernetes"⟩

/-- A Terraform run whose `apply` step and whose cleanup `destroy` both
fail. -/
def demoRun : TerraformRun :=
  { generate := .ok (), init := .ok (), plan := .ok (),
    apply := .error "terraform apply failed", outputJson := .ok [],
    destroy := .error "destroy failed" }

/-- The observable failure outcome of a deployment: status `"failed"`,
the raising error's message recorded verbatim in the error field, and the
user-facing message `"Deployment failed: ..."`. -/
def failedWith (r : DeploymentRecord) (m : String) : Prop :=
  r.status = "failed" ∧ r.error = some m ∧
    r.message = some ("Deployment failed: " ++ m)

/-! ## Helper lemmas -/

lemma maxByScore_mem (f : String → ℚ) :
    ∀ (ks : List String) (best : String),
      maxByScore f best ks = best ∨ maxByScore f best ks ∈ ks := by
  intro ks
  induction ks with
  | nil => intro best; left; rfl
  | cons k t ih =>
      intro best
      rcases ih (if f k > f best then k else best) with h | h
      · by_cases hk : f k > f best
        · right
          simp only [maxByScore]
          rw [h, if_pos hk]
          exact List.mem_cons_self _ _
        · left
          simp only [maxByScore]
          rw [h, if_neg hk]
      · right
        simp only [maxByScore]
        exact List.mem_cons_of_mem _ h

lemma bestStrategy_mem (req : Requirements) (ra : RepoAnalysis) :
    bestStrategy req ra ∈ strategyKeys := by
  have h := maxByScore_mem (fun s => calculate_strategy_score s req ra)
    ["serverless", "container", "kubernetes"] "vm"
  have hb : bestStrategy req ra =
      maxByScore (fun s => calculate_strategy_score s req ra) "vm"
        ["serverless", "container", "kubernetes"] := rfl
  rw [hb]
  rcases h with h | h
  · rw [h]; exact List.mem_cons_self _ _
  · exact List.mem_cons_of_mem _ h

lemma applyPreference_mem (req : Requirements) (best : String)
    (hb : best ∈ strategyKeys) : applyPreference req best ∈ strategyKeys := by
  unfold applyPreference
  cases req.deployment_preference with
  | none => exact hb
  | some p =>
      dsimp only
      by_cases h1 : p ≠ "" ∧ p ≠ "auto"
      · rw [if_pos h1]
        by_cases h2 : p ∈ strategyKeys
        · rw [if_pos h2]; exact h2
        · rw [if_neg h2]; exact hb
      · rw [if_neg h1]; exact hb

lemma applyPreference_known (req : Requirements) (best p : String)
    (hp : req.deployment_preference = some p) (hk : p ∈ strategyKeys) :
    applyPreference req best = p := by
  unfold applyPreference
  rw [hp]
  dsimp only
  have h1 : p ≠ "" ∧ p ≠ "auto" := by
    simp only [strategyKeys, List.mem_cons, List.not_mem_nil, or_false] at hk
    rcases hk with rfl | rfl | rfl | rfl <;> exact ⟨by decide, by decide⟩
  rw [if_pos h1, if_pos hk]

lemma determine_strategy_strategy (req : Requirements) (ra : RepoAnalysis) :
    (determine_strategy req ra).strategy = applyPreference req (bestStrategy req ra) := rfl

/-! ## Claim C1 -/

/-- Claim C1: for every `Requirements` and `RepoAnalysis`,
`DeploymentEngine.determine_strategy` never raises (it is embedded here as
a total function built from dict lookups with defaults and pure
construction) and the returned plan's strategy is one of the fixed set
`{vm, serverless, container, kubernetes}`; and whenever
`deployment_preference` is set and is one of the known strategies (which
excludes `"auto"` and the empty string, so the source's truthiness guard
is satisfied), the returned strategy equals that preference regardless of
the computed scores. -/
theorem c1_strategy_in_fixed_set_and_preference_override
    (req : Requirements) (ra : RepoAnalysis) :
    (determine_strategy req ra).strategy ∈ strategyKeys ∧
    ∀ p, req.deployment_preference = some p → p ∈ strategyKeys →
      (determine_strategy req ra).strategy = p := by
  constructor
  · rw [determine_strategy_strategy]
    exact applyPreference_mem req _ (bestStrategy_mem req ra)
  · intro p hp hk
    rw [determine_strategy_strategy]
    exact applyPreference_known req _ p hp hk

/-- Witness for C1 at the claim's own example: scaling `"high"` with
preference `"vm"` yields strategy `"vm"` (even though scoring would favor
another strategy). -/
theorem c1_strategy_override_witness :
    highVmReq.deployment_preference = some "vm" ∧ "vm" ∈ strategyKeys ∧
    (determine_strategy highVmReq flaskProfile).strategy = "vm" :=
  ⟨rfl, by decide,
   (c1_strategy_in_fixed_set_and_preference_override highVmReq flaskProfile).2
     "vm" rfl (by decide)⟩

/-! ## Claim C3 -/

/-- Claim C3 counterexample: on the claim's input (framework `"flask"`,
python, no services, scaling `"minimal"`) the container score is not the
claimed 0.5 — the source also grants container a 0.2 bonus because
`"flask"` is in its framework list (src/deployment_engine.py line 119),
giving 0.4 + 0.2 + 0.1 = 0.7. -/
theorem c3_container_score_counterexample :
    calculate_strategy_score "container" minimalReq flaskProfile ≠ 0.5 := by
  simp [calculate_strategy_score, minimalReq, flaskProfile, max_def]
  norm_num

/-- Claim C3 as amended: for the Flask profile with no services and
scaling `"minimal"`, the computed scores are serverless = 1.2,
container = 0.7 (0.4 base + 0.2 flask bonus + 0.1 python), vm = 0.8 and
kubernetes = 0.1; serverless is strictly highest and, with no preference
override, is the chosen strategy. -/
theorem c3_flask_minimal_scores_and_choice :
    calculate_strategy_score "serverless" minimalReq flaskProfile = 1.2 ∧
    calculate_strategy_score "container" minimalReq flaskProfile = 0.7 ∧
    calculate_strategy_score "vm" minimalReq flaskProfile = 0.8 ∧
    calculate_strategy_score "kubernetes" minimalReq flaskProfile = 0.1 ∧
    calculate_strategy_score "vm" minimalReq flaskProfile <
      calculate_strategy_score "serverless" minimalReq flaskProfile ∧
    calculate_strategy_score "container" minimalReq flaskProfile <
      calculate_strategy_score "serverless" minimalReq flaskProfile ∧
    calculate_strategy_score "kubernetes" minimalReq flaskProfile <
      calculate_strategy_score "serverless" minimalReq flaskProfile ∧
    minimalReq.deployment_preference = none ∧
    (determine_strategy minimalReq flaskProfile).strategy = "serverless" := by
  have hvm : calculate_strategy_score "vm" minimalReq flaskProfile = 0.8 := by
    simp [calculate_strategy_score, minimalReq, flaskProfile, max_def]; norm_num
  have hsl : calculate_strategy_score "serverless" minimalReq flaskProfile = 1.2 := by
    simp [calculate_strategy_score, minimalReq, flaskProfile, max_def]; norm_num
  have hct : calculate_strategy_score "container" minimalReq flaskProfile = 0.7 := by
    simp [calculate_strategy_score, minimalReq, flaskProfile, max_def]; norm_num
  have hk8 : calculate_strategy_score "kubernetes" minimalReq flaskProfile = 0.1 := by
    simp [calculate_strategy_score, minimalReq, flaskProfile, max_def]; norm_num
  have s1 : (if calculate_strategy_score "serverless" minimalReq flaskProfile >
      calculate_strategy_score "vm" minimalReq flaskProfile
      then "serverless" else "vm") = "serverless" := by
    rw [hsl, hvm]; norm_num
  have s2 : (if calculate_strategy_score "container" minimalReq flaskProfile >
      calculate_strategy_score "serverless" minimalReq flaskProfile
      then "container" else "serverless") = "serverless" := by
    rw [hct, hsl]; norm_num
  have s3 : (if calculate_strategy_score "kubernetes" minimalReq flaskProfile >
      calculate_strategy_score "serverless" minimalReq flaskProfile
      then "kubernetes" else "serverless") = "serverless" := by
    rw [hk8, hsl]; norm_num
  have hb : bestStrategy minimalReq flaskProfile = "serverless" := by
    simp only [bestStrategy, strategyKeys, maxByScore, s1, s2, s3]
  refine ⟨hsl, hct, hvm, hk8, ?_, ?_, ?_, rfl, ?_⟩
  · rw [hvm, hsl]; norm_num
  · rw [hct, hsl]; norm_num
  · rw [hk8, hsl]; norm_num
  · rw [determine_strategy_strategy, hb]; rfl

/-! ## Claim C4 -/

/-- Claim C4 counterexample: an analysis with known language, framework,
dependencies, entry points, start commands and a *detected* port equal to
`0` does not score 1.0 — Python's `if analysis.get('port'):` is a
truthiness test, so port `0` skips the 0.10 bonus and the score is 0.95. -/
theorem c4_zero_port_counterexample : calculate_confidence zeroPortProfile ≠ 1 := by
  simp [calculate_confidence, zeroPortProfile, flaskProfile, truthyStr, truthyInt, min_def]
  norm_num

/-- Claim C4 as amended: the confidence score always lies in [0, 1]; and
for any analysis with a language other than `"unknown"`, a truthy (non-null,
non-empty) framework, a non-empty dependencies map, a non-empty entry-point
list, a detected *non-zero* port, and a non-empty start-command list, the
score is exactly min(0.30+0.20+0.20+0.15+0.10+0.05, 1.0) = 1.0. -/
theorem c4_confidence_bounds_and_full_score :
    (∀ a : RepoAnalysis, 0 ≤ calculate_confidence a ∧ calculate_confidence a ≤ 1) ∧
    (∀ a : RepoAnalysis, a.language ≠ some "unknown" → truthyStr a.framework = true →
      a.dependencies ≠ [] → a.entry_points ≠ [] → truthyInt a.port = true →
      a.start_commands ≠ [] → calculate_confidence a = 1) := by
  have hnn : ∀ (c : Prop) (inst : Decidable c) (x : ℚ), 0 ≤ x →
      0 ≤ (if c then x else 0) := by
    intro c inst x hx
    split
    · exact hx
    · exact le_refl 0
  constructor
  · intro a
    unfold calculate_confidence
    refine ⟨le_min ?_ zero_le_one, min_le_right _ _⟩
    refine add_nonneg (add_nonneg (add_nonneg (add_nonneg (add_nonneg ?_ ?_) ?_) ?_) ?_) ?_ <;>
      exact hnn _ _ _ (by norm_num)
  · intro a hl hf hd he hp hs
    unfold calculate_confidence
    rw [if_pos hl, if_pos hf, if_pos hd, if_pos he, if_pos hp, if_pos hs]
    norm_num [min_def]

/-- Witness for C4's amended theorem: the Flask profile with detected port
5000 satisfies every hypothesis and scores exactly 1. -/
theorem c4_full_score_witness :
    fullProfile.language ≠ some "unknown" ∧ truthyInt fullProfile.port = true ∧
    calculate_confidence fullProfile = 1 :=
  ⟨by decide, by decide,
   c4_confidence_bounds_and_full_score.2 fullProfile (by decide) (by decide)
     (by decide) (by decide) (by decide) (by decide)⟩

/-! ## Claim C5 -/

/-- Claim C5 counterexample: the container path builds
`f"http://ecs-service-url:{app_port}"`, but `_verify_deployment` only
short-circuits on the exact string `"http://ecs-service-url:8000"`; with
application port 5000 (e.g. the Flask default) the URL is probed, and with
no successful probe verification returns `False` rather than
short-circuiting to success. -/
theorem c5_placeholder_counterexample :
    verify_deployment (some (ecsServiceUrl (some 5000))) false = false := by decide

/-- Claim C5 as amended: verification short-circuits to success exactly
for a falsy (missing or empty) URL and for the one literal placeholder
`"http://ecs-service-url:8000"`; a container-path URL with any other
application port (here 5000) is probed, the result being whatever the
probe loop yields.  The container deploy path itself raises on a falsy
(missing or empty) ECR repository URL and otherwise reports success with
the placeholder URL without ever invoking verification. -/
theorem c5_verification_short_circuit (probe : Bool) (ecr : String)
    (cl : Option String) (p : Option Int) :
    verify_deployment none probe = true ∧
    verify_deployment (some "") probe = true ∧
    verify_deployment (some (ecsServiceUrl (some 8000))) probe = true ∧
    verify_deployment (some (ecsServiceUrl (some 5000))) probe = probe ∧
    deploy_to_container (some "") cl p (.ok ()) =
      .error "ECR repository URL not found" ∧
    (ecr ≠ "" → deploy_to_container (some ecr) cl p (.ok ()) =
      .ok { status := "success", url := some (ecsServiceUrl p),
            deployment_type := "container" }) := by
  refine ⟨rfl, rfl, rfl, rfl, rfl, ?_⟩
  intro h
  simp [deploy_to_container, truthyStr, h]

/-- Witness for C5's amended theorem at concrete inputs. -/
theorem c5_short_circuit_witness :
    verify_deployment (some (ecsServiceUrl (some 8000))) false = true ∧
    deploy_to_container (some "123.dkr.ecr.us-east-1.amazonaws.com/app") none
        (some 5000) (.ok ()) =
      .ok { status := "success", url := some "http://ecs-service-url:5000",
            deployment_type := "container" } :=
  ⟨(c5_verification_short_circuit false "x" none none).2.2.1,
   ((c5_verification_short_circuit false "123.dkr.ecr.us-east-1.amazonaws.com/app"
       none (some 5000)).2.2.2.2.2 (by decide)).trans rfl⟩

/-! ## Claim C2 -/

/-- Claim C2 counterexample: the store's stage-setter
(`update_deployment_status`, the source's only `setStage` analogue) is
unguarded — applied to a record whose status is already `"completed"` it
happily changes the status, so it is not the store that enforces
terminality.  (The source also has no Profiling/Deciding/... stage values
at all: the only statuses ever assigned are `"initiated"`, `"processing"`,
`"completed"` and `"failed"`.) -/
theorem c2_set_stage_unguarded_counterexample :
    (update_deployment_status { initialRecord with status := "completed" }
        "failed" "Deployment failed: boom").status ≠ "completed" := by
  decide

/-- Claim C2 as amended: the statuses the pipeline assigns to a deployment
record are exactly the forward chain `"initiated"` (at creation) then
`"processing"` then exactly one of `"completed"` or `"failed"`, whatever
the stage outcomes; no status is ever assigned after the terminal one, so
the status never regresses — but this holds because of the pipeline's call
sequence, not because `update_deployment_status` refuses late writes. -/
theorem c2_status_trace_forward_only (parsed : Except String Requirements)
    (analyzed : Except String RepoAnalysis)
    (provisioned : Except String (List (String × String)))
    (deployFn : DeploymentConfig → List (String × String) → Except String DeployResult) :
    initialRecord.status = "initiated" ∧
    ("initiated" :: statusTrace (process_deployment_ops parsed analyzed provisioned deployFn) =
        ["initiated", "processing", "completed"] ∨
     "initiated" :: statusTrace (process_deployment_ops parsed analyzed provisioned deployFn) =
        ["initiated", "processing", "failed"]) := by
  refine ⟨rfl, ?_⟩
  cases parsed with
  | error e => right; simp [process_deployment_ops, statusTrace, fail_ops]
  | ok req =>
      cases analyzed with
      | error e => right; simp [process_deployment_ops, statusTrace, fail_ops]
      | ok ra =>
          cases provisioned with
          | error e => right; simp [process_deployment_ops, statusTrace, fail_ops]
          | ok infra =>
              cases hd : deployFn (determine_strategy req ra) infra with
              | error e => right; simp [process_deployment_ops, statusTrace, fail_ops, hd]
              | ok res => left; simp [process_deployment_ops, statusTrace, fail_ops, hd]

/-- Witness for C2's amended theorem: a run in which provisioning fails
produces the trace initiated, processing, failed. -/
theorem c2_status_trace_witness :
    "initiated" :: statusTrace (process_deployment_ops (.ok minimalReq)
        (.ok flaskProfile) (.error "Terraform apply failed")
        (fun _ _ => .ok ⟨"success", none, "vm"⟩)) =
      ["initiated", "processing", "completed"] ∨
    "initiated" :: statusTrace (process_deployment_ops (.ok minimalReq)
        (.ok flaskProfile) (.error "Terraform apply failed")
        (fun _ _ => .ok ⟨"success", none, "vm"⟩)) =
      ["initiated", "processing", "failed"] :=
  (c2_status_trace_forward_only (.ok minimalReq) (.ok flaskProfile)
    (.error "Terraform apply failed") (fun _ _ => .ok ⟨"success", none, "vm"⟩)).2

/-! ## Claim C6 -/

/-- Claim C6: an error raised in any fallible pipeline stage — natural
language parsing, repository analysis, provisioning, or deployment
(verification failures surface as deployment errors) — is caught at the
coordinator's `except` boundary: the record's status becomes `"failed"`,
the error message is recorded verbatim in the record's error field, the
user-facing message is `"Deployment failed: <msg>"`, and nothing
propagates (the embedding is a total function into `DeploymentRecord`;
polling clients read this record). -/
theorem c6_errors_caught_and_recorded (r0 : DeploymentRecord) (m : String) :
    (∀ (an : Except String RepoAnalysis) (pr : Except String (List (String × String)))
       (df : DeploymentConfig → List (String × String) → Except String DeployResult),
       failedWith (run_process_deployment r0 (.error m) an pr df) m) ∧
    (∀ (req : Requirements) (pr : Except String (List (String × String)))
       (df : DeploymentConfig → List (String × String) → Except String DeployResult),
       failedWith (run_process_deployment r0 (.ok req) (.error m) pr df) m) ∧
    (∀ (req : Requirements) (ra : RepoAnalysis)
       (df : DeploymentConfig → List (String × String) → Except String DeployResult),
       failedWith (run_process_deployment r0 (.ok req) (.ok ra) (.error m) df) m) ∧
    (∀ (req : Requirements) (ra : RepoAnalysis) (infra : List (String × String))
       (df : DeploymentConfig → List (String × String) → Except String DeployResult),
       df (determine_strategy req ra) infra = .error m →
       failedWith (run_process_deployment r0 (.ok req) (.ok ra) (.ok infra) df) m) := by
  refine ⟨?_, ?_, ?_, ?_⟩
  · intro an pr df
    simp [failedWith, run_process_deployment, process_deployment_ops, fail_ops, applyOp,
      update_deployment_status, log_step]
  · intro req pr df
    simp [failedWith, run_process_deployment, process_deployment_ops, fail_ops, applyOp,
      update_deployment_status, log_step]
  · intro req ra df
    simp [failedWith, run_process_deployment, process_deployment_ops, fail_ops, applyOp,
      update_deployment_status, log_step]
  · intro req ra infra df h
    simp [failedWith, run_process_deployment, process_deployment_ops, fail_ops, applyOp,
      update_deployment_status, log_step, h]

/-- Witness for C6 at a concrete failing parse and at a concrete failing
deployment backend. -/
theorem c6_failure_recorded_witness :
    failedWith (run_process_deployment initialRecord
      (.error "Failed to clone repository") (.ok flaskProfile) (.ok [])
      (fun _ _ => .ok ⟨"success", none, "vm"⟩)) "Failed to clone repository" ∧
    failedWith (run_process_deployment initialRecord (.ok minimalReq)
      (.ok flaskProfile) (.ok []) (fun _ _ => .error "Docker build failed"))
      "Docker build failed" :=
  ⟨(c6_errors_caught_and_recorded initialRecord "Failed to clone repository").1
     (.ok flaskProfile) (.ok []) (fun _ _ => .ok ⟨"success", none, "vm"⟩),
   (c6_errors_caught_and_recorded initialRecord "Docker build failed").2.2.2
     minimalReq flaskProfile [] (fun _ _ => .error "Docker build failed") rfl⟩

/-! ## Claim C7 -/

/-- Claim C7: an error raised by any provisioning step (Terraform file
generation, init, plan or apply) makes `provision` run the best-effort
`_cleanup_on_failure` teardown and re-raise the *original* error; the
teardown attempt is always logged, a teardown failure is logged and
swallowed, and the provisioning outcome never depends on the teardown
outcome. -/
theorem c7_provision_failure_teardown (run : TerraformRun) (e : String) :
    (run.generate = .error e →
      provision run = (.error e, cleanup_on_failure run.destroy)) ∧
    (run.generate = .ok () → run.init = .error e →
      provision run = (.error e, cleanup_on_failure run.destroy)) ∧
    (run.generate = .ok () → run.init = .ok () → run.plan = .error e →
      provision run = (.error e, cleanup_on_failure run.destroy)) ∧
    (run.generate = .ok () → run.init = .ok () → run.plan = .ok () →
      run.apply = .error e →
      provision run = (.error e, cleanup_on_failure run.destroy)) ∧
    (∀ d, "Cleaning up infrastructure due to deployment failure..." ∈
      cleanup_on_failure d) ∧
    (∀ msg, ("Failed to cleanup infrastructure: " ++ msg) ∈
      cleanup_on_failure (.error msg)) ∧
    (∀ d₁ d₂, (provision { run with destroy := d₁ }).1 =
      (provision { run with destroy := d₂ }).1) := by
  obtain ⟨g, i, pl, ap, oj, ds⟩ := run
  refine ⟨?_, ?_, ?_, ?_, ?_, ?_, ?_⟩
  · intro h
    dsimp only at h
    subst h
    rfl
  · intro hg h
    dsimp only at hg h
    subst hg; subst h
    rfl
  · intro hg hi h
    dsimp only at hg hi h
    subst hg; subst hi; subst h
    rfl
  · intro hg hi hp h
    dsimp only at hg hi hp h
    subst hg; subst hi; subst hp; subst h
    rfl
  · intro d
    exact List.mem_cons_self _ _
  · intro msg
    exact List.mem_cons_of_mem _ (List.mem_cons_self _ _)
  · intro d₁ d₂
    cases g with
    | error e' => rfl
    | ok u =>
        cases i with
        | error e' => rfl
        | ok u =>
            cases pl with
            | error e' => rfl
            | ok u =>
                cases ap with
                | error e' => rfl
                | ok u => rfl

/-- Witness for C7: a run whose `apply` and whose cleanup `destroy` both
fail propagates the apply error and logs both the teardown attempt and the
teardown failure. -/
theorem c7_teardown_witness :
    provision demoRun = (.error "terraform apply failed",
      cleanup_on_failure demoRun.destroy) ∧
    cleanup_on_failure demoRun.destroy =
      ["Cleaning up infrastructure due to deployment failure...",
       "Failed to cleanup infrastructure: destroy failed"] :=
  ⟨(c7_provision_failure_teardown demoRun "terraform apply failed").2.2.2.1
     rfl rfl rfl rfl, rfl⟩

/-! ## Claim C8 -/

/-- Claim C8 (bug exhibit): the fallback chain of `_get_default_port`
(framework table, then language defaults, then 8080) is implemented and
would yield 5000 for the Flask profile, but the generated configuration
never uses it when no port was detected: the analyzer always stores a
`'port'` key (value `None` when undetected), and Python's
`dict.get('port', default)` returns the stored value whenever the key is
present, so the default — although eagerly evaluated — is discarded and
the plan's application and networking ports are `None`, not a concrete
port number. -/
theorem c8_default_port_fallback_is_dead (req : Requirements)
    (ra : RepoAnalysis) (s : String) (h : ra.port = none) :
    (generate_deployment_config s req ra).application.port = none ∧
    (generate_deployment_config s req ra).networking.application_port = none ∧
    get_default_port flaskProfile = 5000 ∧
    (determine_strategy minimalReq flaskProfile).application.port = none := by
  have hnet : ∀ (s' : String) (ra' : RepoAnalysis),
      (generate_networking_config s' ra').application_port = ra'.port := by
    intro s' ra'
    unfold generate_networking_config
    split <;> split <;> rfl
  refine ⟨by simp [generate_deployment_config, h], ?_, by decide, rfl⟩
  show (generate_networking_config s ra).application_port = none
  rw [hnet s ra, h]

/-- Witness for C8's theorem at the Flask profile with no detected port. -/
theorem c8_dead_fallback_witness :
    flaskProfile.port = none ∧
    (generate_deployment_config "serverless" minimalReq flaskProfile).application.port = none ∧
    get_default_port flaskProfile = 5000 :=
  ⟨rfl,
   (c8_default_port_fallback_is_dead minimalReq flaskProfile "serverless" rfl).1,
   (c8_default_port_fallback_is_dead minimalReq flaskProfile "serverless" rfl).2.2.1⟩

/-! ## Claim C10 -/

/-- Claim C10: the decision engine can select `"kubernetes"` on its own
(it strictly wins the scoring on `k8sReq`/`k8sProfile`) and the user can
force it via `deployment_preference`; yet `ApplicationDeployer.deploy`
dispatches only on vm/serverless/container and raises
`ValueError("Unsupported deployment strategy: kubernetes")` for it, so a
kubernetes deployment always ends with status `"failed"` and that message
recorded — it never reaches a deployed application. -/
theorem c10_kubernetes_always_fails (r0 : DeploymentRecord)
    (infra : List (String × String))
    (vmCase serverlessCase containerCase : Except String DeployResult) :
    (determine_strategy k8sReq k8sProfile).strategy = "kubernetes" ∧
    (∀ ra : RepoAnalysis, (determine_strategy prefK8sReq ra).strategy = "kubernetes") ∧
    app_deploy "kubernetes" vmCase serverlessCase containerCase =
      .error "Unsupported deployment strategy: kubernetes" ∧
    failedWith (run_process_deployment r0 (.ok k8sReq) (.ok k8sProfile) (.ok infra)
        (fun cfg _ => app_deploy cfg.strategy vmCase serverlessCase containerCase))
      "Unsupported deployment strategy: kubernetes" := by
  have hvm : calculate_strategy_score "vm" k8sReq k8sProfile = 0.8 := by
    simp [calculate_strategy_score, k8sReq, k8sProfile, max_def]; norm_num
  have hsl : calculate_strategy_score "serverless" k8sReq k8sProfile = 0 := by
    simp [calculate_strategy_score, k8sReq, k8sProfile, max_def]; norm_num
  have hct : calculate_strategy_score "container" k8sReq k8sProfile = 0.6 := by
    simp [calculate_strategy_score, k8sReq, k8sProfile, max_def]; norm_num
  have hk8 : calculate_strategy_score "kubernetes" k8sReq k8sProfile = 1 := by
    simp [calculate_strategy_score, k8sReq, k8sProfile, max_def]; norm_num
  have s1 : (if calculate_strategy_score "serverless" k8sReq k8sProfile >
      calculate_strategy_score "vm" k8sReq k8sProfile
      then "serverless" else "vm") = "vm" := by
    rw [hsl, hvm]; norm_num
  have s2 : (if calculate_strategy_score "container" k8sReq k8sProfile >
      calculate_strategy_score "vm" k8sReq k8sProfile
      then "container" else "vm") = "vm" := by
    rw [hct, hvm]; norm_num
  have s3 : (if calculate_strategy_score "kubernetes" k8sReq k8sProfile >
      calculate_strategy_score "vm" k8sReq k8sProfile
      then "kubernetes" else "vm") = "kubernetes" := by
    rw [hk8, hvm]; norm_num
  have hstrat : (determine_strategy k8sReq k8sProfile).strategy = "kubernetes" := by
    rw [determine_strategy_strategy]
    show bestStrategy k8sReq k8sProfile = "kubernetes"
    simp only [bestStrategy, strategyKeys, maxByScore, s1, s2, s3]
  have hd : app_deploy (determine_strategy k8sReq k8sProfile).strategy
      vmCase serverlessCase containerCase =
      .error "Unsupported deployment strategy: kubernetes" := by
    rw [hstrat]
    rfl
  refine ⟨hstrat, ?_, rfl, ?_⟩
  · intro ra
    rw [determine_strategy_strategy]
    exact applyPreference_known prefK8sReq _ "kubernetes" rfl (by decide)
  · simp [failedWith, run_process_deployment, process_deployment_ops, fail_ops,
      applyOp, update_deployment_status, log_step, hd]

/-- Witness for C10 at concrete backend outcomes: even with every
strategy-specific backend reporting success, the kubernetes dispatch
errors and the pipeline records the failure. -/
theorem c10_kubernetes_fails_witness :
    failedWith (run_process_deployment initialRecord (.ok k8sReq) (.ok k8sProfile)
        (.ok []) (fun cfg _ => app_deploy cfg.strategy
          (.ok ⟨"success", none, "vm"⟩) (.ok ⟨"success", none, "serverless"⟩)
          (.ok ⟨"success", none, "container"⟩)))
      "Unsupported deployment strategy: kubernetes" :=
  (c10_kubernetes_always_fails initialRecord [] (.ok ⟨"success", none, "vm"⟩)
    (.ok ⟨"success", none, "serverless"⟩) (.ok ⟨"success", none, "container"⟩)).2.2.2

/-! ## Claim C9 -/

lemma fpp_none_iff (findall : String → String → List Nat) (content : String) :
    ∀ pats : List String, first_pattern_port findall content pats = none ↔
      ∀ p ∈ pats, findall p content = [] := by
  intro pats
  induction pats with
  | nil => simp [first_pattern_port]
  | cons p ps ih =>
      simp only [first_pattern_port]
      cases h : findall p content with
      | nil => simp [h, ih, List.forall_mem_cons]
      | cons n l => simp [h, List.forall_mem_cons]

lemma dp_none_iff (findall : String → String → List Nat) :
    ∀ files : List String, detect_port findall files = none ↔
      ∀ f ∈ files, ∀ p ∈ port_patterns, findall p f = [] := by
  intro files
  induction files with
  | nil => simp [detect_port]
  | cons f fs ih =>
      simp only [detect_port]
      cases h : first_pattern_port findall f port_patterns with
      | none =>
          have hf := (fpp_none_iff findall f port_patterns).mp h
          constructor
          · intro hh
            exact List.forall_mem_cons.mpr ⟨hf, ih.mp hh⟩
          · intro hh
            exact ih.mpr (List.forall_mem_cons.mp hh).2
      | some n =>
          simp only [List.forall_mem_cons]
          constructor
          · intro hh; exact absurd hh (by simp)
          · rintro ⟨hf, _⟩
            have := (fpp_none_iff findall f port_patterns).mpr hf
            rw [this] at h
            exact absurd h (by simp)

lemma fpp_first (findall : String → String → List Nat) (content : String)
    (p : String) (n : Nat) (l : List Nat) (hp : findall p content = n :: l) :
    ∀ ps₁ : List String, (∀ q ∈ ps₁, findall q content = []) →
      ∀ ps₂, first_pattern_port findall content (ps₁ ++ p :: ps₂) = some n := by
  intro ps₁
  induction ps₁ with
  | nil => intro _ ps₂; simp [first_pattern_port, hp]
  | cons q qs ih =>
      intro hskip ps₂
      have hq : findall q content = [] := hskip q (List.mem_cons_self _ _)
      simp only [List.cons_append, first_pattern_port, hq]
      exact ih (fun r hr => hskip r (List.mem_cons_of_mem _ hr)) ps₂

/-- Claim C9: `_detect_port` applies the fixed ordered pattern list over
the source files and is first-match-wins, not best-match: (a) it returns
no port exactly when no pattern matches any file; (b) a file in which no
pattern matches is skipped, leaving the result to the remaining files; (c)
in the first file where some pattern matches, the earliest pattern in the
fixed order that matches wins, and its *first* numeric match is returned
(`int(matches[0])`), regardless of any later patterns, matches or files. -/
theorem c9_detect_port_first_match (findall : String → String → List Nat)
    (files : List String) :
    (detect_port findall files = none ↔
      ∀ f ∈ files, ∀ p ∈ port_patterns, findall p f = []) ∧
    (∀ f fs, files = f :: fs → (∀ p ∈ port_patterns, findall p f = []) →
      detect_port findall files = detect_port findall fs) ∧
    (∀ f fs ps₁ p ps₂ n l, files = f :: fs →
      port_patterns = ps₁ ++ p :: ps₂ → (∀ q ∈ ps₁, findall q f = []) →
      findall p f = n :: l → detect_port findall files = some n) := by
  refine ⟨dp_none_iff findall files, ?_, ?_⟩
  · intro f fs hfi hall
    subst hfi
    simp only [detect_port, (fpp_none_iff findall f port_patterns).mpr hall]
  · intro f fs ps₁ p ps₂ n l hfi hpat hskip hp
    subst hfi
    have hfirst := fpp_first findall f p n l hp ps₁ hskip ps₂
    rw [← hpat] at hfirst
    simp only [detect_port, hfirst]

/-- Witness for C9 at concrete regex-engine behaviours: with no pattern
matching anywhere no port is detected, and with the first pattern matching
`8080` in the first file that match is returned. -/
theorem c9_detect_port_witness :
    detect_port (fun _ _ => ([] : List Nat)) ["app.py", "server.js"] = none ∧
    detect_port (fun _ _ => ([8080] : List Nat)) ["app.py", "server.js"] = some 8080 :=
  ⟨(c9_detect_port_first_match (fun _ _ => []) ["app.py", "server.js"]).1.mpr
     (fun _ _ _ _ => rfl),
   (c9_detect_port_first_match (fun _ _ => [8080]) ["app.py", "server.js"]).2.2
     "app.py" ["server.js"] [] "port[\"\\s]*[:=][\"\\s]*(\\d+)"
     port_patterns.tail 8080 [] rfl rfl (by intro q hq; simp at hq) rfl⟩
